import Mathlib

/-!
Verification of the `hauptverwalter` Django app (StuRa motion management).

This file shallowly embeds the data model and the operations of
`src/hauptverwalter/models.py` and `src/hauptverwalter/helper.py`:

* Django model rows become Lean structures; foreign keys are inlined as the
  referenced record (Django compares foreign keys by primary key; the primary
  key of `Legislatur` is its `nummer`, and all referenced records come from
  the same stored table, so structural equality coincides with pk equality).
* Free-text and contact fields (`titel`, `text`, `begruendung`, `ort`, ...)
  are elided: no validation or numbering rule reads them.
* `DateTimeField` and `DateField` values live on one integer timeline; the
  embedding works at day granularity, so Python's `.date()` conversion is the
  identity and `timezone.now()` becomes an explicit `now : Int` argument.
* `DecimalField` amounts are integers; only their sign and Python truthiness
  (`Decimal("0")` is falsy) matter to the code under verification.
* `FileField` attachments are booleans recording presence.
* A `clean` method raising `ValidationError` becomes a function into
  `Except VErr Unit`; a `save` method becomes a function returning the row
  that is committed (wrapped in `Except` when the Python `save` can raise).
-/

/-- Validation errors: Django's `ValidationError` either carries a
field-name-to-message dict (`field`) or a plain message (`other`).
Messages are the source's strings, abbreviated to their leading words. -/
inductive VErr where
  | field (name : String) (msg : String)
  | other (msg : String)
deriving DecidableEq, Repr

/-- Errors a `save` method can raise: the `ValueError` for a missing
numbering scope ("No Legislatur exists"), or a `ValidationError` raised by
`full_clean`. -/
inductive SaveErr where
  | noLegislatur
  | invalid (e : VErr)
deriving DecidableEq, Repr

/-- The value of `(xs or 0)` for the maximum query
`order_by("-nummer").values_list("nummer", flat=True).first()`:
the greatest number present, or 0 when the scope holds none. -/
def lastNummer (nums : List Nat) : Nat := nums.foldr max 0

/-- The number the sequence allocator hands out: `(last_nummer or 0) + 1`. -/
def nextNummer (nums : List Nat) : Nat := lastNummer nums + 1

/-- SQL semantics of `nummer__lt`: strictly less, false when either side is NULL. -/
def nummerLt : Option Nat → Option Nat → Bool
  | some a, some b => decide (a < b)
  | _, _ => false

/-- Python truthiness of an optional string (None and the empty string are falsy),
as used on `haushaltsposten` and on `topnames_by_prio.get(...)`. -/
def strTruthy : Option String → Bool
  | none => false
  | some s => !(s == "")

/-- Python truthiness of the optional `prio` integer: None and 0 are falsy
(`if not self.prio`). -/
def prioTruthy : Option Int → Bool
  | none => false
  | some v => !(v == 0)

/-- The test `(self.antragssumme or 0) > 0`: a missing amount and the (falsy)
amount 0 both collapse to 0 before the comparison. -/
def summePos : Option Int → Bool
  | none => false
  | some v => decide ((if v = 0 then (0 : Int) else v) > 0)

/-- The test `x.ende and x.ende < t`: the optional end time is set and lies
strictly before `t`. -/
def endetVor : Option Int → Int → Bool
  | some e, t => decide (e < t)
  | none, _ => false

/-- A `Legislatur` row: integer primary key `nummer` plus the period's dates. -/
structure Legislatur where
  nummer : Nat
  anfangsdatum : Int
  enddatum : Int
deriving DecidableEq, Repr

/-- The guard `if self.legislatur_id and ...` followed by the range check
`not (leg.anfangsdatum <= d <= leg.enddatum)`: true exactly when a
Legislatur is set and the date falls outside its period. -/
def dateOutsideLegislatur : Option Legislatur → Int → Bool
  | some leg, d => !(decide (leg.anfangsdatum ≤ d) && decide (d ≤ leg.enddatum))
  | none, _ => false

/-- `Legislatur.objects.order_by("-nummer").first()`: the period with the
greatest `nummer`, if any exists. -/
def latestLegislatur (legs : List Legislatur) : Option Legislatur :=
  legs.foldl
    (fun best g =>
      match best with
      | none => some g
      | some b => if b.nummer < g.nummer then some g else some b)
    none

/-- A `Sitzung` row: owning period, optional sequence number, start time and
optional end time. (`sondersitzung`, `anmerkungen` and `ort` are elided:
no rule under verification reads them.) -/
structure Sitzung where
  legislatur : Option Legislatur
  nummer : Option Nat
  anfang : Int
  ende : Option Int
deriving DecidableEq, Repr

def msgAnfangAusserhalb : String := "Das Datum liegt nicht innerhalb der Legislaturperiode"
def msgEndeVorAnfang : String := "Die Sitzung kann nicht enden bevor sie begonnen hat"

/-- `Sitzung.clean`: the start must fall inside the owning period (checked only
when a Legislatur is set), and a set end time may not precede the start. -/
def Sitzung.clean (s : Sitzung) : Except VErr Unit :=
  if dateOutsideLegislatur s.legislatur s.anfang then
    .error (.field "anfang" msgAnfangAusserhalb)
  else if endetVor s.ende s.anfang then
    .error (.field "ende" msgEndeVorAnfang)
  else .ok ()

/-- The first step of `Sitzung.save`: if no Legislatur is set, pick the latest
one; raise `ValueError` when none exists at all. -/
def Sitzung.resolveLegislatur (legs : List Legislatur) (s : Sitzung) :
    Except SaveErr Sitzung :=
  match s.legislatur with
  | some _ => .ok s
  | none =>
    match latestLegislatur legs with
    | some leg => .ok { s with legislatur := some leg }
    | none => .error SaveErr.noLegislatur

/-- The numbering step of `Sitzung.save`: when `nummer` is missing it becomes
one more than the maximum over `Sitzung.objects` — the query is GLOBAL, it is
not filtered by `legislatur` (the method's docstring says "auto-assign global
nummer"), matching the `unique=True` declaration on the field. -/
def Sitzung.assignNummer (db : List Sitzung) (s : Sitzung) : Sitzung :=
  match s.nummer with
  | some _ => s
  | none => { s with nummer := some (nextNummer (db.filterMap Sitzung.nummer)) }

/-- `Sitzung.save`: resolve the Legislatur, auto-assign the number, run
`full_clean`, and commit the row. (`full_clean`'s per-field validators and
uniqueness checks are elided; its call to `clean` is what the claims test.) -/
def Sitzung.save (legs : List Legislatur) (db : List Sitzung) (s : Sitzung) :
    Except SaveErr Sitzung :=
  match Sitzung.resolveLegislatur legs s with
  | .error e => .error e
  | .ok s1 =>
    match Sitzung.clean (Sitzung.assignNummer db s1) with
    | .ok _ => .ok (Sitzung.assignNummer db s1)
    | .error e => .error (SaveErr.invalid e)

/-- An `Antrag` row: the fields entering validation, numbering and the
lifecycle rules. `synopse : Bool` records whether the file attachment is
present; `status` and `typ` keep the source's one-letter codes. -/
structure Antrag where
  legislatur : Option Legislatur
  nummer : Option Nat
  typ : String
  minlesungen : Int
  antragssumme : Option Int
  haushaltsposten : Option String
  orgsatzungsaenderung : Bool
  synopse : Bool
  formell_eingereicht : Int
  status : String
deriving DecidableEq, Repr

def Antrag.is_finanzantrag (a : Antrag) : Bool := a.typ == "F"

def Antrag.is_soantrag (a : Antrag) : Bool := a.typ == "S"

def Antrag.will_orgsatzung_aendern (a : Antrag) : Bool := a.orgsatzungsaenderung

/-- `Antrag.default_prio`: 300 for statute-changing motions, 400 for other
statute-or-rules motions, 500 for finance motions, 700 otherwise. -/
def Antrag.default_prio (a : Antrag) : Int :=
  if a.will_orgsatzung_aendern then 300
  else if a.is_soantrag then 400
  else if a.is_finanzantrag then 500
  else 700

def msgFormellAusserhalb : String := "Das Datum liegt nicht innerhalb der Legislaturperiode"
def msgFinanzSumme : String := "Bei Finanzanträgen muss eine (positive) Geldsumme angegeben werden"
def msgFinanzHaushalt : String := "Bei Finanzanträgen muss ein Haushaltsposten angegeben werden"
def msgSummeNurFinanz : String := "Eine Antragssumme kann nur bei Finanzanträgen angegeben werden"
def msgHaushaltNurFinanz : String := "Ein Haushaltsposten kann nur bei Finanzanträgen angegeben werden"
def msgNurSOOrgsatzung : String := "Nur Ordungs/Satzungsänderungsanträge können als die Orgsatzung ändernd markiert werden"
def msgNurSOSynopse : String := "Nur bei Änderungen an Satzungen oder Ordnungen kann eine Synopse hochgeladen werden"

/-- `Antrag.clean`: the checks of the source in order; like the source it
reports the first failed check. -/
def Antrag.clean (a : Antrag) : Except VErr Unit :=
  if dateOutsideLegislatur a.legislatur a.formell_eingereicht then
    .error (.field "formell_eingereicht" msgFormellAusserhalb)
  else if a.is_finanzantrag && !summePos a.antragssumme then
    .error (.field "antragssumme" msgFinanzSumme)
  else if a.is_finanzantrag && !strTruthy a.haushaltsposten then
    .error (.field "haushaltsposten" msgFinanzHaushalt)
  else if !a.is_finanzantrag && summePos a.antragssumme then
    .error (.field "antragssumme" msgSummeNurFinanz)
  else if !a.is_finanzantrag && strTruthy a.haushaltsposten then
    .error (.field "haushaltsposten" msgHaushaltNurFinanz)
  else if a.will_orgsatzung_aendern && !a.is_soantrag then
    .error (.field "orgsatzungsaenderung" msgNurSOOrgsatzung)
  else if a.synopse && !a.is_soantrag then
    .error (.field "synopse" msgNurSOSynopse)
  else .ok ()

/-- The per-period numbering scope of `Antrag.save`:
`Antrag.objects.filter(legislatur=self.legislatur)`, projected to `nummer`. -/
def antragScopeNums (db : List Antrag) (leg : Option Legislatur) : List Nat :=
  (db.filter (fun o => o.legislatur == leg)).filterMap Antrag.nummer

/-- The first step of `Antrag.save`: auto-select the latest Legislatur when
none is given; `ValueError` when no Legislatur exists. -/
def Antrag.resolveLegislatur (legs : List Legislatur) (a : Antrag) :
    Except SaveErr Antrag :=
  match a.legislatur with
  | some _ => .ok a
  | none =>
    match latestLegislatur legs with
    | some leg => .ok { a with legislatur := some leg }
    | none => .error SaveErr.noLegislatur

/-- The numbering step of `Antrag.save`: when `nummer` is missing it becomes
one more than the maximum number among the Anträge of the same Legislatur. -/
def Antrag.assignNummer (db : List Antrag) (a : Antrag) : Antrag :=
  match a.nummer with
  | some _ => a
  | none => { a with nummer := some (nextNummer (antragScopeNums db a.legislatur)) }

/-- `Antrag.save`: resolve the Legislatur, number within it, `full_clean`,
commit. -/
def Antrag.save (legs : List Legislatur) (db : List Antrag) (a : Antrag) :
    Except SaveErr Antrag :=
  match Antrag.resolveLegislatur legs a with
  | .error e => .error e
  | .ok a1 =>
    match Antrag.clean (Antrag.assignNummer db a1) with
    | .ok _ => .ok (Antrag.assignNummer db a1)
    | .error e => .error (SaveErr.invalid e)

/-- An `Unterantrag` row: its parent Antrag (inlined foreign key), its number
in the parent's scope, and the shared base `status`. -/
structure Unterantrag where
  hauptantrag : Antrag
  nummer : Option Nat
  status : String
deriving DecidableEq, Repr

def msgHauptantragNichtInBeratung : String := "Der Hauptantrag ist nicht mehr in Beratung"

/-- `Unterantrag.clean`: the parent Antrag must still be in status "B"
(In Beratung). The foreign key is non-null on every stored row, so the
source's `if self.hauptantrag` guard always holds here. -/
def Unterantrag.clean (u : Unterantrag) : Except VErr Unit :=
  if u.hauptantrag.status != "B" then
    .error (.field "hauptantrag" msgHauptantragNichtInBeratung)
  else .ok ()

/-- The per-parent numbering scope of `Unterantrag.save`:
`Unterantrag.objects.filter(hauptantrag=self.hauptantrag)`. -/
def unterantragScopeNums (db : List Unterantrag) (h : Antrag) : List Nat :=
  (db.filter (fun o => o.hauptantrag == h)).filterMap Unterantrag.nummer

/-- The numbering step of `Unterantrag.save`. -/
def Unterantrag.assignNummer (db : List Unterantrag) (u : Unterantrag) : Unterantrag :=
  match u.nummer with
  | some _ => u
  | none => { u with nummer := some (nextNummer (unterantragScopeNums db u.hauptantrag)) }

/-- `Unterantrag.save`: number within the parent scope, `full_clean`, commit. -/
def Unterantrag.save (db : List Unterantrag) (u : Unterantrag) :
    Except SaveErr Unterantrag :=
  match Unterantrag.clean (Unterantrag.assignNummer db u) with
  | .ok _ => .ok (Unterantrag.assignNummer db u)
  | .error e => .error (SaveErr.invalid e)

/-- A `Lesung` row: the Antrag and Sitzung it connects (inlined foreign keys),
the computed `abstimmbar` flag, the user-set urgency flag, the two-letter
status code, and the optional priority. -/
structure Lesung where
  antrag : Antrag
  sitzung : Sitzung
  abstimmbar : Bool
  dringlichkeit_beantragt : Bool
  status : String
  prio : Option Int
deriving DecidableEq, Repr

/-- `Lesung.is_future`: statuses legal before the Sitzung has begun. -/
def Lesung.is_future (l : Lesung) : Bool :=
  (["AV", "NN", "T"] : List String).contains l.status

/-- `Lesung.is_past`: statuses legal once the Sitzung has ended — note the set
contains "NT" besides the five postponement/read/voted codes. -/
def Lesung.is_past (l : Lesung) : Bool :=
  (["E", "V", "ZV", "B", "A", "NT"] : List String).contains l.status

/-- The filter predicate of the queries in `Lesung.clean` and `Lesung.save`:
a stored Lesung of the same Antrag with the given status in a Sitzung with a
strictly smaller number. -/
def Lesung.vorherigeMitStatus (l : Lesung) (st : String) (o : Lesung) : Bool :=
  o.antrag == l.antrag && o.status == st && nummerLt o.sitzung.nummer l.sitzung.nummer

/-- The `.exists()` query of `Lesung.clean`: some other stored Lesung of this
Antrag was already voted ("A") in an earlier Sitzung. `others` is the stored
table minus the row being validated (the source excludes it via
`.exclude(pk=self.pk)`). -/
def Lesung.priorVoted (others : List Lesung) (l : Lesung) : Bool :=
  others.any (Lesung.vorherigeMitStatus l "A")

/-- The `.count()` query of `Lesung.save`: how many readings of this Antrag
were successfully read ("E") in earlier Sitzungen. -/
def Lesung.previous_successful (db : List Lesung) (l : Lesung) : Nat :=
  db.countP (Lesung.vorherigeMitStatus l "E")

def msgVerschiedeneLegislatur : String := "Die Sitzung und der Antrag müssen in derselben Legislaturperiode liegen"
def msgBereitsAbgestimmt : String := "Bei einer vorherigen Sitzung wurde dieser Antrag bereits abgestimmt"
def msgSitzungVorEinreichung : String := "Die Sitzung beginnt, bevor der Antrag formell eingereicht wurde"
def msgOrgsatzungNichtDringlich : String := "Anträge, die die Orgsatzung ändern, können nicht dringlich abgestimmt werden"
def msgSchonAbstimmbar : String := "Der Antrag ist schon als in dieser Lesung abstimmbar markiert"
def msgSitzungNochNichtBegonnen : String := "Die Sitzung hat noch nicht begonnen - der Status macht keinen Sinn"
def msgSitzungSchonZuende : String := "Die Sitzung ist schon zuende - der Status macht keinen Sinn"

/-- `Lesung.clean`: the source's checks in order — same Legislatur on both
sides, no earlier voted reading, Sitzung not before formal submission,
statute-changing motions never urgent, urgency and votability mutually
exclusive, and status consistent with the Sitzung being not yet started
resp. already over (`timezone.now()` is the explicit `now`). -/
def Lesung.clean (others : List Lesung) (l : Lesung) (now : Int) : Except VErr Unit :=
  if l.sitzung.legislatur != l.antrag.legislatur then
    .error (.other msgVerschiedeneLegislatur)
  else if Lesung.priorVoted others l then
    .error (.other msgBereitsAbgestimmt)
  else if decide (l.sitzung.anfang < l.antrag.formell_eingereicht) then
    .error (.field "sitzung" msgSitzungVorEinreichung)
  else if l.antrag.orgsatzungsaenderung && l.dringlichkeit_beantragt then
    .error (.other msgOrgsatzungNichtDringlich)
  else if l.dringlichkeit_beantragt && l.abstimmbar then
    .error (.field "dringlichkeit_beantragt" msgSchonAbstimmbar)
  else if decide (l.sitzung.anfang > now) && !l.is_future then
    .error (.field "status" msgSitzungNochNichtBegonnen)
  else if endetVor l.sitzung.ende now && !l.is_past then
    .error (.field "status" msgSitzungSchonZuende)
  else .ok ()

/-- The first assignment of `Lesung.save`: recompute `abstimmbar` from the
count of earlier successful readings against `minlesungen - 1`. -/
def Lesung.setAbstimmbar (db : List Lesung) (l : Lesung) : Lesung :=
  { l with abstimmbar :=
      decide ((Lesung.previous_successful db l : Int) ≥ l.antrag.minlesungen - 1) }

/-- `Lesung.save`: recompute `abstimmbar` (via `Lesung.setAbstimmbar`), then
default the priority by motion type when it is unset (or 0, which is falsy),
and commit. The method does NOT call `full_clean`: no validation runs on this
path. -/
def Lesung.save (db : List Lesung) (l : Lesung) : Lesung :=
  if prioTruthy (Lesung.setAbstimmbar db l).prio then
    Lesung.setAbstimmbar db l
  else
    { Lesung.setAbstimmbar db l with prio := some (Lesung.setAbstimmbar db l).antrag.default_prio }

/-- The projection of a Lesung that `helper.buildTOPs` reads: its priority
(always set on stored rows — `Lesung.save` defaults it) and the Antrag's
formal submission time used as tie-break key. -/
structure TOPLesung where
  prio : Int
  formell_eingereicht : Int
deriving DecidableEq, Repr

/-- An agenda block produced by `helper.buildTOPs`: the priority tier, the
block title and the member readings in order. (The running `top_counter` of
the source is incremented but never stored in a block, so it is elided.) -/
structure TOPBlock where
  prio : Int
  titel : String
  lesungen : List TOPLesung
deriving DecidableEq, Repr

/-- The comparator of `order_by("prio", "antrag__formell_eingereicht")`:
priority ascending, then formal submission time ascending. -/
def lesungLE (a b : TOPLesung) : Bool :=
  decide (a.prio < b.prio) ||
    (decide (a.prio = b.prio) && decide (a.formell_eingereicht ≤ b.formell_eingereicht))

/-- Stable insertion of one reading into an already sorted list. -/
def sortInsertLesung (x : TOPLesung) : List TOPLesung → List TOPLesung
  | [] => [x]
  | y :: ys => if lesungLE x y then x :: y :: ys else y :: sortInsertLesung x ys

/-- Stable sort realising the `order_by` of the source's query. -/
def sortLesungen : List TOPLesung → List TOPLesung
  | [] => []
  | x :: xs => sortInsertLesung x (sortLesungen xs)

/-- Modelled from the spec: the `TOPname` table (imported by `helper.py` from
`models.py`, where no such class appears in the sources) assigns a
human-readable name to a priority value; `helper.buildTOPs` reads it only
through the per-meeting dictionary `topnames_by_prio`, embedded here as a
lookup function from priority to optional name. -/
def TOPNames : Type := Int → Option String

/-- The Python append `priority_block["lesungen"].append(lesung)`: the block
currently open is the head of the reversed accumulator. The empty case is
unreachable — the loop opens a block whenever none is open yet. -/
def appendToOpenBlock (l : TOPLesung) : List TOPBlock → List TOPBlock
  | [] => []
  | b :: bs => { b with lesungen := b.lesungen ++ [l] } :: bs

/-- The loop of `helper.buildTOPs` over the sorted readings, carrying
`current_priority` and the blocks built so far (most recent first). A new
block is opened exactly when the priority changed and this priority has a
(truthy) name or no block exists yet; the title is "TOP " plus the name, with
the source's fallback title for an unnamed first block. -/
def buildTOPsGo (names : TOPNames) :
    List TOPLesung → Option Int → List TOPBlock → List TOPBlock
  | [], _, acc => acc.reverse
  | l :: rest, current_priority, acc =>
    if some l.prio ≠ current_priority then
      if strTruthy (names l.prio) || acc.isEmpty then
        buildTOPsGo names rest (some l.prio)
          ({ prio := l.prio,
             titel := "TOP " ++
               ((names l.prio).getD ("Erster TOP (Prio " ++ toString l.prio ++ ")")),
             lesungen := [l] } :: acc)
      else
        buildTOPsGo names rest (some l.prio) (appendToOpenBlock l acc)
    else
      buildTOPsGo names rest current_priority (appendToOpenBlock l acc)

/-- `helper.buildTOPs`: sort the meeting's readings by (priority, formal
submission time) ascending and group them into titled agenda blocks. -/
def buildTOPs (names : TOPNames) (lesungen : List TOPLesung) : List TOPBlock :=
  buildTOPsGo names (sortLesungen lesungen) none []

/-- The persisted columns touched by the accept/reject operations of a
Lesung: the status stored on the Lesung row and on its parent Antrag row. -/
structure AbstimmungDB where
  lesung_status : String
  antrag_status : String
deriving DecidableEq, Repr

/-- `AntragBase.make_angenommen`: inside `transaction.atomic()` set
`self.status = "A"` and call `self.save()`, persisting the Antrag row. -/
def make_angenommen (db : AbstimmungDB) : AbstimmungDB :=
  { db with antrag_status := "A" }

/-- `AntragBase.make_abgelehnt`: persist status "N" on the Antrag row. -/
def make_abgelehnt (db : AbstimmungDB) : AbstimmungDB :=
  { db with antrag_status := "N" }

/-- `Lesung.antrag_angenommen`: inside `transaction.atomic()` it assigns
`self.status = "A"` — a write to the in-memory instance only; the method never
calls `self.save()` — and then `self.antrag.make_angenommen()`, which persists
the Antrag row. The result pairs the in-memory Lesung status with the
persisted state after the transaction commits. -/
def antrag_angenommen (db : AbstimmungDB) : String × AbstimmungDB :=
  ("A", make_angenommen db)

/-- `Lesung.antrag_abgelehnt`: same shape — sets the in-memory Lesung status
to "A" without saving it and persists status "N" on the Antrag. -/
def antrag_abgelehnt (db : AbstimmungDB) : String × AbstimmungDB :=
  ("A", make_abgelehnt db)

/-! Concrete records used by the witnesses and counterexamples. -/

def leg1 : Legislatur := ⟨1, 0, 100⟩

def leg2 : Legislatur := ⟨2, 101, 200⟩

/-- A well-formed Antrag of the plain type "A" in `leg1` demanding two readings. -/
def antragM2 : Antrag :=
  { legislatur := some leg1, nummer := some 1, typ := "A", minlesungen := 2,
    antragssumme := none, haushaltsposten := none, orgsatzungsaenderung := false,
    synopse := false, formell_eingereicht := 5, status := "B" }

def sitzung1 : Sitzung :=
  { legislatur := some leg1, nummer := some 1, anfang := 10, ende := some 15 }

def sitzung2 : Sitzung :=
  { legislatur := some leg1, nummer := some 2, anfang := 20, ende := none }

/-- C1 (code_bug): the operation "motion accepted in this reading" is supposed
to persist Reading.status = Voted and Motion.status = Accepted together.
Evaluating the embedded `Lesung.antrag_angenommen` at a Lesung stored with
status "NN" and a Motion stored with status "B" shows the committed state is
partial: the Antrag row ends Accepted ("A") while the Lesung row still holds
"NN" — the method assigns `self.status = "A"` only in memory and never calls
`self.save()`. The rejected variant behaves the same way. -/
theorem C1_partial_vote_state :
    antrag_angenommen ⟨"NN", "B"⟩ = ("A", ⟨"NN", "A"⟩)
    ∧ (antrag_angenommen ⟨"NN", "B"⟩).2.lesung_status ≠ "A"
    ∧ antrag_abgelehnt ⟨"NN", "B"⟩ = ("A", ⟨"NN", "N"⟩)
    ∧ (antrag_abgelehnt ⟨"NN", "B"⟩).2.lesung_status ≠ "A" := by
  refine ⟨rfl, by decide, rfl, by decide⟩

/-- The priority names of the C4 scenario: 500 is named "Finance", 300 is
named "Statute". -/
def topNamesFS : TOPNames := fun p =>
  if p = 500 then some "Finance" else if p = 300 then some "Statute" else none

def lesung500a : TOPLesung := ⟨500, 1⟩

def lesung500b : TOPLesung := ⟨500, 2⟩

def lesung300a : TOPLesung := ⟨300, 3⟩

def lesung300b : TOPLesung := ⟨300, 4⟩

/-- The C4 scenario's readings, priorities [500, 500, 300, 300]. -/
def agendaInput : List TOPLesung := [lesung500a, lesung500b, lesung300a, lesung300b]

/-- C4 (counterexample): on the meeting with reading priorities
[500, 500, 300, 300] and names 500 = "Finance", 300 = "Statute", the Agenda
Builder sorts by priority ASCENDING, so the first produced block is the
priority-300 block and its titles carry the source's "TOP " prefix: the block
titles come out ["TOP Statute", "TOP Finance"], not "Finance" first. -/
theorem C4_counterexample :
    (buildTOPs topNamesFS agendaInput).map TOPBlock.titel = ["TOP Statute", "TOP Finance"]
    ∧ (buildTOPs topNamesFS agendaInput).map TOPBlock.prio = [300, 500] := by
  refine ⟨rfl, rfl⟩

/-- C4 (corrected): the full output on the scenario — exactly two blocks, the
first titled "TOP Statute" holding the two priority-300 readings in
submission order, the second titled "TOP Finance" holding the two
priority-500 readings. -/
theorem C4_amended_blocks :
    buildTOPs topNamesFS agendaInput =
      [{ prio := 300, titel := "TOP Statute", lesungen := [lesung300a, lesung300b] },
       { prio := 500, titel := "TOP Finance", lesungen := [lesung500a, lesung500b] }] := by
  rfl

/-- C9: a SubMotion under a parent Motion whose status is not "B"
(In Beratung) fails validation regardless of every other field: `clean`
reports the `hauptantrag` field, and `save` — which runs `full_clean` on
both creation and edit — fails the same way for every database state. -/
theorem C9_parent_not_in_deliberation (u : Unterantrag) (h : u.hauptantrag.status ≠ "B") :
    Unterantrag.clean u = .error (.field "hauptantrag" msgHauptantragNichtInBeratung)
    ∧ ∀ db, Unterantrag.save db u =
        .error (SaveErr.invalid (.field "hauptantrag" msgHauptantragNichtInBeratung)) := by
  have hb : (u.hauptantrag.status != "B") = true := by
    simpa [bne_iff_ne] using h
  constructor
  · simp [Unterantrag.clean, hb]
  · intro db
    have hpres : (Unterantrag.assignNummer db u).hauptantrag = u.hauptantrag := by
      unfold Unterantrag.assignNummer; split <;> rfl
    simp [Unterantrag.save, Unterantrag.clean, hpres, hb]

/-- An Antrag already rejected ("N"), used as an illegal SubMotion parent. -/
def abgelehnterAntrag : Antrag := { antragM2 with status := "N" }

def unterantragZuSpaet : Unterantrag := ⟨abgelehnterAntrag, some 1, "B"⟩

/-- C9 (witness): the rule evaluated at a concrete SubMotion whose parent was
rejected. -/
theorem C9_witness :
    unterantragZuSpaet.hauptantrag.status ≠ "B"
    ∧ Unterantrag.clean unterantragZuSpaet =
        .error (.field "hauptantrag" msgHauptantragNichtInBeratung) := by
  refine ⟨by decide, (C9_parent_not_in_deliberation unterantragZuSpaet (by decide)).1⟩

/-- C5: after every `Lesung.save`, the stored `abstimmbar` flag is true exactly
when the number of this Antrag's readings with status "E" in strictly earlier
Sitzungen reaches `minlesungen - 1`; and for a Motion with `minlesungen = 2`
the flag is true exactly when at least one such earlier successful reading
exists in the stored table. -/
theorem C5_votable_rule (db : List Lesung) (l : Lesung) :
    ((Lesung.save db l).abstimmbar = true ↔
      (Lesung.previous_successful db l : Int) ≥ l.antrag.minlesungen - 1)
    ∧ (l.antrag.minlesungen = 2 →
        ((Lesung.save db l).abstimmbar = true ↔
          ∃ o ∈ db, Lesung.vorherigeMitStatus l "E" o = true)) := by
  have habst : (Lesung.save db l).abstimmbar =
      decide ((Lesung.previous_successful db l : Int) ≥ l.antrag.minlesungen - 1) := by
    unfold Lesung.save Lesung.setAbstimmbar
    split <;> rfl
  constructor
  · rw [habst]
    exact decide_eq_true_iff
  · intro h2
    rw [habst, h2]
    have hcast : ((Lesung.previous_successful db l : Int) ≥ 2 - 1) ↔
        0 < Lesung.previous_successful db l := by omega
    rw [decide_eq_true_iff, hcast, Lesung.previous_successful, List.countP_pos_iff]

/-- A first reading of `antragM2`, successfully read in `sitzung1`. -/
def lesungErfolgreich1 : Lesung :=
  { antrag := antragM2, sitzung := sitzung1, abstimmbar := false,
    dringlichkeit_beantragt := false, status := "E", prio := some 700 }

/-- A second reading of `antragM2` in the later `sitzung2`. -/
def lesungNeu2 : Lesung :=
  { antrag := antragM2, sitzung := sitzung2, abstimmbar := false,
    dringlichkeit_beantragt := false, status := "NN", prio := some 700 }

/-- C5 (witness): with `minlesungen = 2` and one earlier successful reading
stored, saving the second reading sets `abstimmbar = true`. -/
theorem C5_witness :
    antragM2.minlesungen = 2
    ∧ ((Lesung.save [lesungErfolgreich1] lesungNeu2).abstimmbar = true ↔
        ∃ o ∈ [lesungErfolgreich1], Lesung.vorherigeMitStatus lesungNeu2 "E" o = true)
    ∧ (Lesung.save [lesungErfolgreich1] lesungNeu2).abstimmbar = true := by
  refine ⟨rfl, (C5_votable_rule [lesungErfolgreich1] lesungNeu2).2 rfl, by decide⟩

/-- Every number present in a scope is bounded by the scope's maximum. -/
theorem mem_le_lastNummer {x : Nat} {xs : List Nat} (h : x ∈ xs) : x ≤ lastNummer xs := by
  induction xs with
  | nil => cases h
  | cons y ys ih =>
    rcases List.mem_cons.mp h with rfl | hmem
    · exact le_max_left _ _
    · exact le_trans (ih hmem) (le_max_right _ _)

/-- Destructing a successful `Sitzung.save`: the committed row is the resolved
and numbered input, and it passed `clean`. -/
theorem sitzungSave_ok_dest {legs : List Legislatur} {db : List Sitzung} {s s' : Sitzung}
    (h : Sitzung.save legs db s = .ok s') :
    ∃ s1, Sitzung.resolveLegislatur legs s = .ok s1
      ∧ s' = Sitzung.assignNummer db s1 ∧ Sitzung.clean s' = .ok () := by
  unfold Sitzung.save at h
  split at h
  · cases h
  next s1 heq =>
    split at h
    next u hclean =>
      cases u
      cases h
      exact ⟨s1, heq, rfl, hclean⟩
    · cases h

/-- `Sitzung.resolveLegislatur` never touches the row's number. -/
theorem sitzungResolve_nummer {legs : List Legislatur} {s s1 : Sitzung}
    (h : Sitzung.resolveLegislatur legs s = .ok s1) : s1.nummer = s.nummer := by
  unfold Sitzung.resolveLegislatur at h
  split at h
  · cases h; rfl
  · split at h
    · cases h; rfl
    · cases h

/-- A Sitzung of period 1 already numbered 5. -/
def sitzungLeg1Nr5 : Sitzung :=
  { legislatur := some leg1, nummer := some 5, anfang := 10, ende := none }

/-- An unnumbered new Sitzung of period 2. -/
def sitzungNeuLeg2 : Sitzung :=
  { legislatur := some leg2, nummer := none, anfang := 150, ende := none }

/-- C2 (counterexample): meeting numbering does not restart per period. With
one stored Sitzung (period 1, number 5), saving an unnumbered Sitzung of
period 2 — a period with no meetings, where period-scoped numbering would
assign 1 — assigns the global successor 6. -/
theorem C2_counterexample :
    Sitzung.save [leg1, leg2] [sitzungLeg1Nr5] sitzungNeuLeg2 =
      .ok { legislatur := some leg2, nummer := some 6, anfang := 150, ende := none }
    ∧ sitzungNeuLeg2.nummer = none
    ∧ sitzungLeg1Nr5.legislatur ≠ sitzungNeuLeg2.legislatur
    ∧ (some 6 : Option Nat) ≠ some 1 := by
  refine ⟨rfl, rfl, by decide, by decide⟩

/-- C2 (corrected): a Meeting saved without a number receives one more than
the maximum sequence number among ALL stored Meetings of every period (1 when
none exists at all); the assigned number therefore exceeds every stored
number, so it is globally fresh and the Meeting is resolvable by its number
alone. -/
theorem C2_amended_global_numbering (legs : List Legislatur) (db : List Sitzung)
    (s s' : Sitzung) (hn : s.nummer = none) (h : Sitzung.save legs db s = .ok s') :
    s'.nummer = some (nextNummer (db.filterMap Sitzung.nummer))
    ∧ ∀ t ∈ db, ∀ k, t.nummer = some k →
        k < nextNummer (db.filterMap Sitzung.nummer) := by
  obtain ⟨s1, hres, hass, -⟩ := sitzungSave_ok_dest h
  have h1 : s1.nummer = none := (sitzungResolve_nummer hres).trans hn
  constructor
  · rw [hass]
    unfold Sitzung.assignNummer
    rw [h1]
  · intro t ht k hk
    have hkmem : k ∈ db.filterMap Sitzung.nummer :=
      List.mem_filterMap.mpr ⟨t, ht, hk⟩
    have := mem_le_lastNummer hkmem
    unfold nextNummer
    omega

/-- C2 (witness): the corrected numbering rule at the concrete scenario of
the counterexample — 6 is exactly `nextNummer` of the stored numbers. -/
theorem C2_witness :
    sitzungNeuLeg2.nummer = none
    ∧ Sitzung.save [leg1, leg2] [sitzungLeg1Nr5] sitzungNeuLeg2 =
        .ok { legislatur := some leg2, nummer := some 6, anfang := 150, ende := none }
    ∧ ({ legislatur := some leg2, nummer := some 6, anfang := 150, ende := none } : Sitzung).nummer
        = some (nextNummer ([sitzungLeg1Nr5].filterMap Sitzung.nummer)) := by
  refine ⟨rfl, rfl, ?_⟩
  exact (C2_amended_global_numbering [leg1, leg2] [sitzungLeg1Nr5] sitzungNeuLeg2
    { legislatur := some leg2, nummer := some 6, anfang := 150, ende := none } rfl rfl).1

/-- Destructing a successful `Antrag.save`. -/
theorem antragSave_ok_dest {legs : List Legislatur} {db : List Antrag} {a a' : Antrag}
    (h : Antrag.save legs db a = .ok a') :
    ∃ a1, Antrag.resolveLegislatur legs a = .ok a1
      ∧ a' = Antrag.assignNummer db a1 ∧ Antrag.clean a' = .ok () := by
  unfold Antrag.save at h
  split at h
  · cases h
  next a1 heq =>
    split at h
    next u hclean =>
      cases u
      cases h
      exact ⟨a1, heq, rfl, hclean⟩
    · cases h

/-- `Antrag.resolveLegislatur` never touches the row's number. -/
theorem antragResolve_nummer {legs : List Legislatur} {a a1 : Antrag}
    (h : Antrag.resolveLegislatur legs a = .ok a1) : a1.nummer = a.nummer := by
  unfold Antrag.resolveLegislatur at h
  split at h
  · cases h; rfl
  · split at h
    · cases h; rfl
    · cases h

/-- `Antrag.assignNummer` never touches the row's Legislatur. -/
theorem antragAssign_legislatur (db : List Antrag) (a : Antrag) :
    (Antrag.assignNummer db a).legislatur = a.legislatur := by
  unfold Antrag.assignNummer
  split <;> rfl

/-- Destructing a successful `Unterantrag.save`. -/
theorem unterantragSave_ok_dest {db : List Unterantrag} {u u' : Unterantrag}
    (h : Unterantrag.save db u = .ok u') :
    u' = Unterantrag.assignNummer db u ∧ Unterantrag.clean u' = .ok () := by
  unfold Unterantrag.save at h
  split at h
  next v hclean =>
    cases v
    cases h
    exact ⟨rfl, hclean⟩
  · cases h

/-- `Unterantrag.assignNummer` never touches the parent reference. -/
theorem unterantragAssign_hauptantrag (db : List Unterantrag) (u : Unterantrag) :
    (Unterantrag.assignNummer db u).hauptantrag = u.hauptantrag := by
  unfold Unterantrag.assignNummer
  split <;> rfl

/-- C3 (corrected): for Motions (scope: their Legislatur) and SubMotions
(scope: their parent Motion) saved without an explicit number, the assigned
number is one more than the maximum currently stored in the scope (1 when the
scope is empty), and it strictly exceeds every number currently stored there —
so numbers below the current scope maximum are never handed out again, but
the maximum itself becomes reusable once its holder is deleted. -/
theorem C3_amended_allocation :
    (∀ legs db a a', a.nummer = none → Antrag.save legs db a = .ok a' →
       a'.nummer = some (nextNummer (antragScopeNums db a'.legislatur))
       ∧ ∀ t ∈ db, t.legislatur = a'.legislatur → ∀ k, t.nummer = some k →
           k < nextNummer (antragScopeNums db a'.legislatur))
    ∧ (∀ db u u', u.nummer = none → Unterantrag.save db u = .ok u' →
       u'.nummer = some (nextNummer (unterantragScopeNums db u'.hauptantrag))
       ∧ ∀ t ∈ db, t.hauptantrag = u'.hauptantrag → ∀ k, t.nummer = some k →
           k < nextNummer (unterantragScopeNums db u'.hauptantrag)) := by
  constructor
  · intro legs db a a' hn h
    obtain ⟨a1, hres, hass, -⟩ := antragSave_ok_dest h
    have h1 : a1.nummer = none := (antragResolve_nummer hres).trans hn
    have hleg : a'.legislatur = a1.legislatur := by
      rw [hass]; exact antragAssign_legislatur db a1
    constructor
    · rw [hleg, hass]
      unfold Antrag.assignNummer
      rw [h1]
    · intro t ht htleg k hk
      have hkmem : k ∈ antragScopeNums db a'.legislatur := by
        unfold antragScopeNums
        refine List.mem_filterMap.mpr ⟨t, ?_, hk⟩
        exact List.mem_filter.mpr ⟨ht, by simp [htleg]⟩
      have := mem_le_lastNummer hkmem
      unfold nextNummer
      omega
  · intro db u u' hn h
    obtain ⟨hass, -⟩ := unterantragSave_ok_dest h
    have hha : u'.hauptantrag = u.hauptantrag := by
      rw [hass]; exact unterantragAssign_hauptantrag db u
    constructor
    · rw [hha, hass]
      unfold Unterantrag.assignNummer
      rw [hn]
    · intro t ht htha k hk
      have hkmem : k ∈ unterantragScopeNums db u'.hauptantrag := by
        unfold unterantragScopeNums
        refine List.mem_filterMap.mpr ⟨t, ?_, hk⟩
        exact List.mem_filter.mpr ⟨ht, by simp [htha]⟩
      have := mem_le_lastNummer hkmem
      unfold nextNummer
      omega

/-- An unnumbered new Antrag of period 1. -/
def antragNeu : Antrag := { antragM2 with nummer := none }

def antragNr1 : Antrag := { antragNeu with nummer := some 1 }

def antragNr2 : Antrag := { antragNeu with nummer := some 2 }

/-- C3 (counterexample): a sequence number IS reassigned after its holder is
deleted. Creating two Anträge in period 1 assigns 1 then 2; after deleting
the Antrag numbered 2 from the stored table, the next creation assigns 2
again. -/
theorem C3_counterexample :
    Antrag.save [leg1] [] antragNeu = .ok antragNr1
    ∧ Antrag.save [leg1] [antragNr1] antragNeu = .ok antragNr2
    ∧ List.erase [antragNr1, antragNr2] antragNr2 = [antragNr1]
    ∧ Antrag.save [leg1] (List.erase [antragNr1, antragNr2] antragNr2) antragNeu
        = .ok antragNr2 := by
  refine ⟨rfl, rfl, by decide, ?_⟩
  have he : List.erase [antragNr1, antragNr2] antragNr2 = [antragNr1] := by decide
  rw [he]
  rfl

/-- C3 (witness): the corrected allocation rule at the concrete second
creation — the assigned number 2 is `nextNummer` of the period-1 scope. -/
theorem C3_witness :
    antragNeu.nummer = none
    ∧ Antrag.save [leg1] [antragNr1] antragNeu = .ok antragNr2
    ∧ antragNr2.nummer = some (nextNummer (antragScopeNums [antragNr1] antragNr2.legislatur)) := by
  refine ⟨rfl, rfl, ?_⟩
  exact (C3_amended_allocation.1 [leg1] [antragNr1] antragNeu antragNr2 rfl rfl).1

/-- A Finance Antrag with amount 0 whose formal submission date lies outside
its Legislatur. -/
def finanzantragFalschesDatum : Antrag :=
  { antragM2 with
    typ := "F"
    antragssumme := some 0
    haushaltsposten := some "123"
    formell_eingereicht := 200 }

/-- A non-Finance Antrag whose amount is SET, to the (falsy) value 0. -/
def normalantragSummeNull : Antrag :=
  { antragM2 with antragssumme := some 0 }

/-- C6 (counterexample): two failures of the claim. A Finance Motion with
amount 0 but an out-of-range submission date fails with the date error, not an
amount-related one (the validator reports only the first failed check); and a
non-Finance Motion whose amount is set to 0 — set, but falsy in Python —
passes validation although the claim demands a failure whenever the amount is
set. -/
theorem C6_counterexample :
    Antrag.clean finanzantragFalschesDatum =
      .error (.field "formell_eingereicht" msgFormellAusserhalb)
    ∧ finanzantragFalschesDatum.is_finanzantrag = true
    ∧ finanzantragFalschesDatum.antragssumme = some 0
    ∧ (VErr.field "formell_eingereicht" msgFormellAusserhalb
        ≠ VErr.field "antragssumme" msgFinanzSumme)
    ∧ Antrag.clean normalantragSummeNull = .ok ()
    ∧ normalantragSummeNull.is_finanzantrag = false
    ∧ normalantragSummeNull.antragssumme = some 0 := by
  refine ⟨rfl, rfl, rfl, by decide, rfl, rfl, rfl⟩

/-- C6 (corrected): validation of an Antrag fails for every Finance Motion
whose amount is unset or not positive — with the amount error whenever the
preceding date check passes —, fails for every Finance Motion (with in-range
date and positive amount) whose budget line is unset or empty, and fails for
every non-Finance Motion whose amount is set and positive or whose budget
line is set and nonempty; an amount set to exactly 0 and an empty budget
line count as unset. -/
theorem C6_amended_validation (a : Antrag) :
    (a.is_finanzantrag = true → summePos a.antragssumme = false →
       Antrag.clean a ≠ .ok ()
       ∧ (dateOutsideLegislatur a.legislatur a.formell_eingereicht = false →
            Antrag.clean a = .error (.field "antragssumme" msgFinanzSumme)))
    ∧ (a.is_finanzantrag = true →
         dateOutsideLegislatur a.legislatur a.formell_eingereicht = false →
         summePos a.antragssumme = true → strTruthy a.haushaltsposten = false →
         Antrag.clean a = .error (.field "haushaltsposten" msgFinanzHaushalt))
    ∧ (a.is_finanzantrag = false → summePos a.antragssumme = true →
         Antrag.clean a ≠ .ok ())
    ∧ (a.is_finanzantrag = false → strTruthy a.haushaltsposten = true →
         Antrag.clean a ≠ .ok ()) := by
  refine ⟨fun hf hs => ⟨?_, fun hd => ?_⟩, fun hf hd hs hh => ?_, fun hf hs => ?_,
    fun hf hh => ?_⟩
  · by_cases hd : dateOutsideLegislatur a.legislatur a.formell_eingereicht
    · simp [Antrag.clean, hd]
    · simp [Antrag.clean, hd, hf, hs]
  · simp [Antrag.clean, hd, hf, hs]
  · simp [Antrag.clean, hd, hf, hs, hh]
  · by_cases hd : dateOutsideLegislatur a.legislatur a.formell_eingereicht
    · simp [Antrag.clean, hd]
    · simp [Antrag.clean, hd, hf, hs]
  · by_cases hd : dateOutsideLegislatur a.legislatur a.formell_eingereicht
    · simp [Antrag.clean, hd]
    · by_cases hs : summePos a.antragssumme
      · simp [Antrag.clean, hd, hf, hs]
      · simp [Antrag.clean, hd, hf, hs, hh]

/-- A Finance Antrag with an in-range date and no amount at all. -/
def finanzantragOhneSumme : Antrag :=
  { antragM2 with
    typ := "F"
    antragssumme := none
    haushaltsposten := some "123" }

/-- C6 (witness): the corrected rule at a concrete Finance Motion with unset
amount and in-range date: the amount-related error is reported. -/
theorem C6_witness :
    finanzantragOhneSumme.is_finanzantrag = true
    ∧ summePos finanzantragOhneSumme.antragssumme = false
    ∧ dateOutsideLegislatur finanzantragOhneSumme.legislatur
        finanzantragOhneSumme.formell_eingereicht = false
    ∧ Antrag.clean finanzantragOhneSumme = .error (.field "antragssumme" msgFinanzSumme) := by
  refine ⟨rfl, rfl, rfl, ((C6_amended_validation finanzantragOhneSumme).1 rfl rfl).2 rfl⟩

/-- A Sitzung of period 1 that has ended (end 20). -/
def sitzungVorbei : Sitzung :=
  { legislatur := some leg1, nummer := some 2, anfang := 10, ende := some 20 }

/-- A reading with the post-submission status "NT" in the ended Sitzung. -/
def lesungNT : Lesung :=
  { antrag := antragM2, sitzung := sitzungVorbei, abstimmbar := false,
    dringlichkeit_beantragt := false, status := "NT", prio := some 700 }

/-- C7 (counterexample): for an ended Sitzung (end 20, now 30) a Lesung with
status "NT" — which lies outside the claim's five-status set — passes
validation: the source's `is_past` set additionally contains "NT". -/
theorem C7_counterexample :
    endetVor lesungNT.sitzung.ende 30 = true
    ∧ (["E", "V", "ZV", "B", "A"] : List String).contains lesungNT.status = false
    ∧ Lesung.clean [] lesungNT 30 = .ok () := by
  refine ⟨rfl, rfl, rfl⟩

/-- C7 (corrected): for every Reading whose Sitzung has ended (end time set
and before now), validation accepts only the six statuses
"E", "V", "ZV", "B", "A", "NT" — the claim's five plus "NT" — and fails for
every other status value. -/
theorem C7_amended_status_gate (others : List Lesung) (l : Lesung) (now : Int)
    (hende : endetVor l.sitzung.ende now = true) :
    (Lesung.clean others l now = .ok () →
       (["E", "V", "ZV", "B", "A", "NT"] : List String).contains l.status = true)
    ∧ ((["E", "V", "ZV", "B", "A", "NT"] : List String).contains l.status = false →
       Lesung.clean others l now ≠ .ok ()) := by
  have key : Lesung.clean others l now = .ok () →
      (["E", "V", "ZV", "B", "A", "NT"] : List String).contains l.status = true := by
    intro h
    unfold Lesung.clean at h
    split at h
    · cases h
    split at h
    · cases h
    split at h
    · cases h
    split at h
    · cases h
    split at h
    · cases h
    split at h
    · cases h
    split at h
    · cases h
    next hguard =>
      have hpast : l.is_past = true := by
        rcases Bool.eq_false_or_eq_true l.is_past with hp | hp
        · exact hp
        · exact absurd (by simp [hende, hp]) hguard
      exact hpast
  refine ⟨key, fun hc h => ?_⟩
  rw [key h] at hc
  exact Bool.noConfusion hc

/-- C7 (witness): the corrected gate at a concrete ended Sitzung with the
legal status "E". -/
theorem C7_witness :
    endetVor lesungErfolgreich1.sitzung.ende 30 = true
    ∧ (["E", "V", "ZV", "B", "A", "NT"] : List String).contains lesungErfolgreich1.status
        = true := by
  refine ⟨rfl, (C7_amended_status_gate [] lesungErfolgreich1 30 rfl).1 rfl⟩

/-- A Sitzung of period 1 starting before `antragM2` was formally submitted. -/
def sitzungFrueh : Sitzung :=
  { legislatur := some leg1, nummer := some 1, anfang := 2, ende := none }

/-- A reading that violates `Lesung.clean`: its Sitzung starts (2) before the
Antrag's formal submission (5). -/
def lesungUngueltig : Lesung :=
  { antrag := antragM2, sitzung := sitzungFrueh, abstimmbar := false,
    dringlichkeit_beantragt := false, status := "NN", prio := some 700 }

/-- C8 (counterexample): `Lesung.save` commits a Reading that the Reading
validator rejects — the method recomputes `abstimmbar` and defaults `prio`
but never calls `full_clean`, so the invalid row (meeting before formal
submission) is persisted unchanged. -/
theorem C8_counterexample :
    Lesung.save [] lesungUngueltig = lesungUngueltig
    ∧ Lesung.clean [] lesungUngueltig 3 =
        .error (.field "sitzung" msgSitzungVorEinreichung) := by
  refine ⟨rfl, rfl⟩

/-- C8 (corrected): the validator gate holds for Meetings, Motions and
SubMotions — their `save` runs `full_clean`, so every committed row satisfies
its `clean` — but not for Readings: `Lesung.save` validates nothing and
commits the concrete invalid Reading above even though `Lesung.clean`
rejects it. -/
theorem C8_amended_validator_gate :
    (∀ legs db s s', Sitzung.save legs db s = .ok s' → Sitzung.clean s' = .ok ())
    ∧ (∀ legs db a a', Antrag.save legs db a = .ok a' → Antrag.clean a' = .ok ())
    ∧ (∀ db u u', Unterantrag.save db u = .ok u' → Unterantrag.clean u' = .ok ())
    ∧ Lesung.save [] lesungUngueltig = lesungUngueltig
    ∧ Lesung.clean [] lesungUngueltig 3 =
        .error (.field "sitzung" msgSitzungVorEinreichung) := by
  refine ⟨?_, ?_, ?_, rfl, rfl⟩
  · intro legs db s s' h
    obtain ⟨s1, -, -, hc⟩ := sitzungSave_ok_dest h
    exact hc
  · intro legs db a a' h
    obtain ⟨a1, -, -, hc⟩ := antragSave_ok_dest h
    exact hc
  · intro db u u' h
    exact (unterantragSave_ok_dest h).2

/-- An unnumbered new Sitzung of period 1, and the row `Sitzung.save`
commits for it on an empty table. -/
def sitzungNeuLeg1 : Sitzung :=
  { legislatur := some leg1, nummer := none, anfang := 10, ende := none }

def sitzungNr1 : Sitzung :=
  { legislatur := some leg1, nummer := some 1, anfang := 10, ende := none }

/-- C8 (witness): the Meeting part of the gate at a concrete save — the
committed row passes `Sitzung.clean`. -/
theorem C8_witness :
    Sitzung.save [leg1] [] sitzungNeuLeg1 = .ok sitzungNr1
    ∧ Sitzung.clean sitzungNr1 = .ok () :=
  ⟨rfl, C8_amended_validator_gate.1 [leg1] [] sitzungNeuLeg1 sitzungNr1 rfl⟩

/-- A Sitzung of period 2 starting before `antragM2` (of period 1) was
formally submitted. -/
def sitzungLeg2Frueh : Sitzung :=
  { legislatur := some leg2, nummer := some 3, anfang := 2, ende := none }

/-- A reading joining a period-1 Antrag to a period-2 Sitzung that also
starts before the formal submission. -/
def lesungFalscheLegislatur : Lesung :=
  { antrag := antragM2, sitzung := sitzungLeg2Frueh, abstimmbar := false,
    dringlichkeit_beantragt := false, status := "NN", prio := some 700 }

/-- C10 (counterexample): a Reading whose Sitzung starts before the formal
submission does NOT always fail on the meeting field — when the
same-Legislatur check fails first, the raised error is the non-field
Legislatur message, not an error on "sitzung". -/
theorem C10_counterexample :
    lesungFalscheLegislatur.sitzung.anfang <
      lesungFalscheLegislatur.antrag.formell_eingereicht
    ∧ Lesung.clean [] lesungFalscheLegislatur 3 = .error (.other msgVerschiedeneLegislatur)
    ∧ (VErr.other msgVerschiedeneLegislatur
        ≠ VErr.field "sitzung" msgSitzungVorEinreichung) := by
  refine ⟨by decide, rfl, by decide⟩

/-- C10 (corrected): every Reading that passes validation has its Sitzung
starting no earlier than the Antrag's formal submission; a Reading violating
this never passes validation, and the error is reported on the meeting field
"sitzung" whenever the two preceding checks (same Legislatur, no earlier
voted reading) pass. -/
theorem C10_amended_temporal_rule (others : List Lesung) (l : Lesung) (now : Int) :
    (Lesung.clean others l now = .ok () →
       l.antrag.formell_eingereicht ≤ l.sitzung.anfang)
    ∧ (l.sitzung.anfang < l.antrag.formell_eingereicht →
       Lesung.clean others l now ≠ .ok ())
    ∧ (l.sitzung.anfang < l.antrag.formell_eingereicht →
       l.sitzung.legislatur = l.antrag.legislatur →
       Lesung.priorVoted others l = false →
       Lesung.clean others l now = .error (.field "sitzung" msgSitzungVorEinreichung)) := by
  have key : Lesung.clean others l now = .ok () →
      l.antrag.formell_eingereicht ≤ l.sitzung.anfang := by
    intro h
    unfold Lesung.clean at h
    split at h
    · cases h
    split at h
    · cases h
    split at h
    · cases h
    next hguard =>
      simp only [decide_eq_true_eq] at hguard
      omega
  refine ⟨key, ?_, ?_⟩
  · intro hlt h
    exact absurd (key h) (by omega)
  · intro hlt hleg hpv
    unfold Lesung.clean
    simp [hleg, hpv, hlt]

/-- C10 (witness): the corrected rule at a concrete same-period Reading whose
Sitzung starts before the formal submission — the error lands on the
"sitzung" field. -/
theorem C10_witness :
    lesungUngueltig.sitzung.anfang < lesungUngueltig.antrag.formell_eingereicht
    ∧ lesungUngueltig.sitzung.legislatur = lesungUngueltig.antrag.legislatur
    ∧ Lesung.priorVoted [] lesungUngueltig = false
    ∧ Lesung.clean [] lesungUngueltig 3 =
        .error (.field "sitzung" msgSitzungVorEinreichung) := by
  refine ⟨by decide, rfl, rfl, ?_⟩
  exact (C10_amended_temporal_rule [] lesungUngueltig 3).2.2 (by decide) rfl rfl
